import Mathlib

/-!
# Verification of the large-scale GP notebook (`sem4-GP/3_LargeScaleGP.ipynb`)

Shallow embedding of the two classes defined in the notebook:

* `SparseGPModel` — an sklearn-style wrapper around `GPy.models.SparseGPRegression`
  (Nyström / inducing-point regression).  The GPy library is external, so its
  fitted model is represented by the data handed to it (`GPyData`) and its
  `predict` method by an oracle function supplied as a parameter.
* `RFF` — the Random Fourier Feature mapper.  The notebook leaves the sampling
  and feature-map expressions as exercise holes (`self.w = `, `Z = `); those
  parts are modelled from the spec, as marked in the doc comments below.

Matrices are `List (List α)` (rows of entries) over a commutative ring `α`;
`numpy` randomness is modelled by an explicit stream `rand : Nat → α` standing
for the (seedable) global `np.random` state at the moment of the call, and the
cosine / √(2/M) of the feature map by explicit function parameters `cosF` and
`sqrt2div`, so that every definition stays executable.
-/

namespace LargeScaleGP

/-- Errors surfaced by the embedded methods.  `notFitted` models sklearn's
`NotFittedError`; `attrError` models Python's `AttributeError` (access to an
attribute that was never assigned); `invalidHyperparameter` is the error the
spec's taxonomy predicts for bad `M` (the code never raises it). -/
inductive Err where
  | notFitted
  | attrError
  | invalidHyperparameter
  deriving DecidableEq, Repr

variable {α : Type} [CommRing α]

/-- Dot product of two vectors (`numpy` `v.dot(w)`), truncating at the shorter
length as `zipWith` does. -/
def dot (v w : List α) : α := (List.zipWith (· * ·) v w).sum

/-- Computes `A.dot(B.T)` for row-major matrices: entry `(i, j)` is `dot A[i] B[j]`.
In particular `matDotT Z Z` is the Gram matrix `Z · Zᵀ`. -/
def matDotT (A B : List (List α)) : List (List α) :=
  A.map fun ra => B.map fun rb => dot ra rb

/-- Entry `(i, j)` of a row-major matrix, with default `0` out of range. -/
def entry (A : List (List α)) (i j : Nat) : α := (A.getD i []).getD j 0

/-- Reads `X.shape[1]`: the number of columns of a (rectangular, nonempty) matrix. -/
def shape1 (X : List (List α)) : Nat := (X.headD []).length

/-! ## The `RFF` class -/

/-- State of an `RFF` instance.  `w` and `u` are `Option`s because Python's
`__init__` does not create those attributes; they come into existence only
when `fit` assigns them. -/
structure RFF (α : Type) where
  gamma : α
  kernel : String
  n_components : Nat
  fitted : Bool
  w : Option (List (List α))
  u : Option (List α)
  deriving DecidableEq, Repr

/-- Embeds `RFF.__init__(gamma, n_components, kernel)`: stores the hyperparameters,
sets `fitted = False`, assigns no `w`/`u`. -/
def RFF.init (gamma : α) (n_components : Nat) (kernel : String) : RFF α :=
  { gamma := gamma, kernel := kernel, n_components := n_components,
    fitted := false, w := none, u := none }

/-- Modelled from the spec: the notebook leaves the frequency-sampling
expressions blank (`self.w = ` under `if self.kernel == "rbf"` and under
`elif self.kernel == "laplace"`).  Drawing `M` i.i.d. frequency vectors of
dimension `d` from the kernel's spectral density is modelled as reading `M·d`
successive values from the ambient random stream `rand`; the distributional
shape (Gaussian with covariance `2·gamma·I` for `rbf`, per-dimension Cauchy
for `laplace`) is not modelled, only the deterministic dependence on the
stream, the hyperparameters and `d`.  A kernel string other than `"rbf"` or
`"laplace"` matches neither branch, so no frequencies are drawn (`none`). -/
def drawFreqs (rand : Nat → α) (kernel : String) (gamma : α) (M d : Nat) :
    Option (List (List α)) :=
  if kernel = "rbf" then
    some ((List.range M).map fun i => (List.range d).map fun j =>
      gamma * rand (i * d + j))
  else if kernel = "laplace" then
    some ((List.range M).map fun i => (List.range d).map fun j =>
      gamma * rand (i * d + j))
  else none

/-- Modelled from the spec: the notebook leaves the phase-sampling expression
blank (`self.u = `).  Drawing `M` i.i.d. phases from `Uniform(0, 2π)` is
modelled as reading the next `M` values of the stream (after the `M·d`
frequency draws). -/
def drawPhases (rand : Nat → α) (M d : Nat) : List α :=
  (List.range M).map fun i => rand (M * d + i)

/-- Embeds `RFF.fit(X, y=None)`: reads `d = X.shape[1]`, draws the frequencies
(keeping any previously assigned `self.w` when the kernel string matches
neither branch, exactly as Python leaves the attribute untouched), draws the
phases, sets `fitted = True`.  `y` is ignored.  The entries of `X` are never
read — only its column count. -/
def RFF.fit (r : RFF α) (rand : Nat → α) (X : List (List α))
    (y : Option (List α)) : RFF α :=
  let d := shape1 X
  { r with
    w := match drawFreqs rand r.kernel r.gamma r.n_components d with
         | some W => some W
         | none => r.w
    u := some (drawPhases rand r.n_components d)
    fitted := true }

/-- Embeds `RFF.transform(X)`: raises `NotFittedError` when `fitted` is false;
otherwise computes the feature map.  The feature-map expression is left blank
in the notebook (`Z = `); it is modelled from the spec:
`Z[i, j] = √(2/M) · cos(w_j · x_i + u_j)`, with `cosF` standing for `cos`
and `sqrt2div M` for `√(2/M)`.  Accessing `w`/`u` when they were never
assigned is Python's `AttributeError`. -/
def RFF.transform (cosF : α → α) (sqrt2div : Nat → α) (r : RFF α)
    (X : List (List α)) : Except Err (List (List α)) :=
  if r.fitted = false then .error .notFitted
  else
    match r.w, r.u with
    | some w, some u =>
        .ok (X.map fun x =>
          List.zipWith (fun wj uj => sqrt2div r.n_components * cosF (dot wj x + uj)) w u)
    | _, _ => .error .attrError

/-- Embeds `RFF.compute_kernel(X)`: raises `NotFittedError` when `fitted` is false;
otherwise `Z = self.transform(X); K = Z.dot(Z.T)`. -/
def RFF.compute_kernel (cosF : α → α) (sqrt2div : Nat → α) (r : RFF α)
    (X : List (List α)) : Except Err (List (List α)) :=
  if r.fitted = false then .error .notFitted
  else (RFF.transform cosF sqrt2div r X).bind fun Z => .ok (matDotT Z Z)

/-- Views `transform` as a state-passing method call: the returned `RFF` is the
state of `self` after the call.  The Python body contains no assignment to
any `self` attribute, so the post-state is the pre-state. -/
def RFF.transformS (cosF : α → α) (sqrt2div : Nat → α) (r : RFF α)
    (X : List (List α)) : Except Err (List (List α)) × RFF α :=
  (RFF.transform cosF sqrt2div r X, r)

/-- Views `compute_kernel` as a state-passing method call; its body assigns no
`self` attribute either. -/
def RFF.compute_kernelS (cosF : α → α) (sqrt2div : Nat → α) (r : RFF α)
    (X : List (List α)) : Except Err (List (List α)) × RFF α :=
  (RFF.compute_kernel cosF sqrt2div r X, r)

/-! ## The `SparseGPModel` class -/

/-- The data handed to the external `GPy.models.SparseGPRegression`
constructor at fit time: training inputs, targets, and the inducing inputs
`Z`. -/
structure GPyData (α : Type) where
  X : List (List α)
  y : List (List α)
  Z : List (List α)
  deriving DecidableEq, Repr

/-- State of a `SparseGPModel` instance.  `model_` is an `Option` because
`__init__` does not create that attribute; `κ` is the type of the opaque GPy
kernel object stored in `kernel_`. -/
structure SparseGPModel (α κ : Type) where
  kernel_ : κ
  num_inducing : Nat
  model_ : Option (GPyData α)
  deriving DecidableEq, Repr

/-- Embeds `SparseGPModel.__init__(kernel, num_inducing)`: stores the kernel object
and `num_inducing`; assigns no `model_`. -/
def SparseGPModel.init {κ : Type} (kernel : κ) (num_inducing : Nat) :
    SparseGPModel α κ :=
  { kernel_ := kernel, num_inducing := num_inducing, model_ := none }

/-- Embeds `Z = X[idx[:self.num_inducing]]` where `idx = np.random.permutation(N)`:
the first `num_inducing` indices of the permutation, mapped to rows of `X`. -/
def selectInducing (idx : List Nat) (M : Nat) (X : List (List α)) :
    List (List α) :=
  (idx.take M).map fun i => X.getD i []

/-- Embeds `SparseGPModel.fit(X, y)`: permutes the row indices (the permutation
`idx` drawn from `np.random` is an explicit argument), takes the first
`num_inducing` rows as inducing inputs, and hands `(X, y, Z)` to the external
GPy constructor, whose fitted model is represented by that data.  No
hyperparameter validation is performed and nothing is raised, so the result
is always `ok`. -/
def SparseGPModel.fit {κ : Type} (m : SparseGPModel α κ) (idx : List Nat)
    (X y : List (List α)) : Except Err (SparseGPModel α κ) :=
  .ok { m with model_ := some ⟨X, y, selectInducing idx m.num_inducing X⟩ }

/-- Embeds `SparseGPModel.predict(X)`: `prediction, _ = self.model_.predict(X);
return prediction`.  The external GPy predict is the oracle `gpy`, returning
a `(mean, variance)` pair; the wrapper keeps only the first component.
When `model_` was never assigned, attribute access is Python's
`AttributeError`. -/
def SparseGPModel.predict {κ : Type}
    (gpy : GPyData α → List (List α) → List (List α) × List (List α))
    (m : SparseGPModel α κ) (X : List (List α)) :
    Except Err (List (List α)) :=
  match m.model_ with
  | none => .error .attrError
  | some g => .ok (gpy g X).1


/-! ## Helper lemmas -/

lemma dot_nil_left (v : List α) : dot ([] : List α) v = 0 := by
  simp [dot]

lemma dot_nil_right (v : List α) : dot v ([] : List α) = 0 := by
  simp [dot]

lemma entry_matDotT (A B : List (List α)) (i j : Nat) :
    entry (matDotT A B) i j = dot (A.getD i []) (B.getD j []) := by
  unfold entry matDotT
  by_cases hi : i < A.length
  · have h1 : (List.map (fun ra => List.map (fun rb => dot ra rb) B) A).getD i []
        = List.map (fun rb => dot (A.getD i []) rb) B := by
      have hi2 : i < (List.map (fun ra => List.map (fun rb => dot ra rb) B) A).length := by
        simpa using hi
      rw [List.getD_eq_getElem _ _ hi2, List.getElem_map, List.getD_eq_getElem _ _ hi]
    rw [h1]
    by_cases hj : j < B.length
    · have hj2 : j < (List.map (fun rb => dot (A.getD i []) rb) B).length := by
        simpa using hj
      rw [List.getD_eq_getElem _ _ hj2, List.getElem_map, List.getD_eq_getElem _ _ hj]
    · have hj1 : B.length ≤ j := Nat.le_of_not_lt hj
      have hj2 : (List.map (fun rb => dot (A.getD i []) rb) B).length ≤ j := by
        simpa using hj1
      rw [List.getD_eq_default _ _ hj2, List.getD_eq_default _ _ hj1, dot_nil_right]
  · have h1 : A.length ≤ i := Nat.le_of_not_lt hi
    have h2 : (List.map (fun ra => List.map (fun rb => dot ra rb) B) A).length ≤ i := by
      simpa using h1
    rw [List.getD_eq_default _ _ h2, List.getD_eq_default _ _ h1, dot_nil_left]
    simp

/-! ## Claim theorems -/

/-- C1.  For every fitted RFF mapper with `M = n_components` stored frequency
vectors `w` and phases `u`, and every input matrix `X`, `transform X` succeeds
and returns the `X.length × M` matrix `Φ` with
`Φ[i, j] = √(2/M) · cos(w_j · x_i + u_j)`. -/
theorem rff_transform_entry (cosF : α → α) (s : Nat → α) (r : RFF α)
    (w X : List (List α)) (u : List α)
    (hf : r.fitted = true) (hw : r.w = some w) (hu : r.u = some u)
    (hlw : w.length = r.n_components) (hlu : u.length = r.n_components) :
    ∃ Φ, RFF.transform cosF s r X = .ok Φ ∧ Φ.length = X.length ∧
      (∀ i, i < X.length → (Φ.getD i []).length = r.n_components) ∧
      (∀ i j, i < X.length → j < r.n_components →
        entry Φ i j
          = s r.n_components * cosF (dot (w.getD j []) (X.getD i []) + u.getD j 0)) := by
  refine ⟨X.map fun x =>
      List.zipWith (fun wj uj => s r.n_components * cosF (dot wj x + uj)) w u,
    ?_, ?_, ?_, ?_⟩
  · simp [RFF.transform, hf, hw, hu]
  · simp
  · intro i hi
    have hi2 : i < (X.map fun x =>
        List.zipWith (fun wj uj => s r.n_components * cosF (dot wj x + uj)) w u).length := by
      simpa using hi
    rw [List.getD_eq_getElem _ _ hi2, List.getElem_map]
    simp [hlw, hlu]
  · intro i j hi hj
    unfold entry
    have h1 : (X.map fun x =>
          List.zipWith (fun wj uj => s r.n_components * cosF (dot wj x + uj)) w u).getD i []
        = List.zipWith (fun wj uj => s r.n_components * cosF (dot wj (X.getD i []) + uj)) w u := by
      have hi2 : i < (X.map fun x =>
          List.zipWith (fun wj uj => s r.n_components * cosF (dot wj x + uj)) w u).length := by
        simpa using hi
      rw [List.getD_eq_getElem _ _ hi2, List.getElem_map, List.getD_eq_getElem _ _ hi]
    rw [h1]
    have hjw : j < w.length := by rw [hlw]; exact hj
    have hju : j < u.length := by rw [hlu]; exact hj
    have hj2 : j < (List.zipWith
        (fun wj uj => s r.n_components * cosF (dot wj (X.getD i []) + uj)) w u).length := by
      rw [List.length_zipWith]
      exact lt_min hjw hju
    rw [List.getD_eq_getElem _ _ hj2, List.getElem_zipWith,
      List.getD_eq_getElem _ _ hjw, List.getD_eq_getElem _ _ hju]

/-- Witness for C1 at a concrete fitted mapper over `ℤ`
(`w = [[1]]`, `u = [0]`, `M = 1`, `X = [[2]]`, `cos` read as `id`,
`√(2/M)` read as `1`). -/
theorem rff_transform_entry_witness :
    ∃ Φ, RFF.transform (id : ℤ → ℤ) (fun _ => 1)
        ⟨1, "rbf", 1, true, some [[1]], some [0]⟩ [[2]] = .ok Φ ∧
      Φ.length = 1 ∧
      (∀ i, i < 1 → (Φ.getD i []).length = 1) ∧
      (∀ i j, i < 1 → j < 1 →
        entry Φ i j = 1 * id (dot (([[1]] : List (List ℤ)).getD j [])
          (([[2]] : List (List ℤ)).getD i []) + ([0] : List ℤ).getD j 0)) := by
  exact rff_transform_entry id (fun _ => 1) ⟨1, "rbf", 1, true, some [[1]], some [0]⟩
    [[1]] [[2]] [0] rfl rfl rfl rfl rfl

/-- C2.  For every fitted RFF mapper and input `X` on which `transform`
succeeds with feature matrix `Z`, `compute_kernel X` returns exactly the Gram
matrix `Z · Zᵀ` (`Z.dot(Z.T)`), whose `(i, j)` entry is `dot Z[i] Z[j]`. -/
theorem rff_compute_kernel_gram (cosF : α → α) (s : Nat → α) (r : RFF α)
    (X Z : List (List α)) (hZ : RFF.transform cosF s r X = .ok Z) :
    RFF.compute_kernel cosF s r X = .ok (matDotT Z Z) ∧
    ∀ i j, entry (matDotT Z Z) i j = dot (Z.getD i []) (Z.getD j []) := by
  have hf : r.fitted = true := by
    cases h : r.fitted
    · exfalso
      unfold RFF.transform at hZ
      rw [h] at hZ
      simp at hZ
    · rfl
  refine ⟨?_, fun i j => entry_matDotT Z Z i j⟩
  unfold RFF.compute_kernel
  rw [hf, hZ]
  rfl

/-- Witness for C2 at the same concrete fitted mapper over `ℤ`, where
`transform` returns `[[2]]`. -/
theorem rff_compute_kernel_gram_witness :
    RFF.compute_kernel (id : ℤ → ℤ) (fun _ => 1)
        ⟨1, "rbf", 1, true, some [[1]], some [0]⟩ [[2]]
      = .ok (matDotT [[2]] [[2]]) ∧
    ∀ i j, entry (matDotT ([[2]] : List (List ℤ)) [[2]]) i j
      = dot (([[2]] : List (List ℤ)).getD i []) (([[2]] : List (List ℤ)).getD j []) := by
  exact rff_compute_kernel_gram id (fun _ => 1)
    ⟨1, "rbf", 1, true, some [[1]], some [0]⟩ [[2]] [[2]] rfl

/-- C3.  Two RFF mapper instances constructed with the same hyperparameters
`(g, M, k)` and fit on the same `X`, `y` with the same random state `rand`
(standing for the identically seeded global `np.random`) store identical
frequencies `w` and phases `u` and produce identical feature matrices
`transform X`; moreover each instance's stored phases are exactly the draws
made from its own random state at its own fit call. -/
theorem rff_fit_deterministic (cosF : α → α) (s : Nat → α) (g : α) (M : Nat)
    (k : String) (rand : Nat → α) (X : List (List α)) (y : Option (List α))
    (r1 r2 : RFF α)
    (h1 : r1 = RFF.fit (RFF.init g M k) rand X y)
    (h2 : r2 = RFF.fit (RFF.init g M k) rand X y) :
    r1.w = r2.w ∧ r1.u = r2.u ∧
    RFF.transform cosF s r1 X = RFF.transform cosF s r2 X ∧
    r1.u = some (drawPhases rand M (shape1 X)) := by
  subst h1
  subst h2
  exact ⟨rfl, rfl, rfl, rfl⟩

/-- Witness for C3 at concrete hyperparameters over `ℤ`. -/
theorem rff_fit_deterministic_witness :
    (RFF.fit (RFF.init (1 : ℤ) 1 "rbf") (fun _ => 0) [[1]] none).w
        = (RFF.fit (RFF.init (1 : ℤ) 1 "rbf") (fun _ => 0) [[1]] none).w ∧
    (RFF.fit (RFF.init (1 : ℤ) 1 "rbf") (fun _ => 0) [[1]] none).u
        = (RFF.fit (RFF.init (1 : ℤ) 1 "rbf") (fun _ => 0) [[1]] none).u ∧
    RFF.transform (id : ℤ → ℤ) (fun _ => 1)
        (RFF.fit (RFF.init (1 : ℤ) 1 "rbf") (fun _ => 0) [[1]] none) [[1]]
      = RFF.transform (id : ℤ → ℤ) (fun _ => 1)
        (RFF.fit (RFF.init (1 : ℤ) 1 "rbf") (fun _ => 0) [[1]] none) [[1]] ∧
    (RFF.fit (RFF.init (1 : ℤ) 1 "rbf") (fun _ => 0) [[1]] none).u
      = some (drawPhases (fun _ => 0) 1 (shape1 ([[1]] : List (List ℤ)))) := by
  exact rff_fit_deterministic id (fun _ => 1) 1 1 "rbf" (fun _ => 0) [[1]] none
    _ _ rfl rfl

/-- C4.  On a freshly constructed RFF mapper (on which `fit` has never been
called, so `fitted = false`), both `transform` and `compute_kernel` raise
`NotFittedError`, for every input `X`. -/
theorem rff_unfitted_raises (cosF : α → α) (s : Nat → α) (g : α) (M : Nat)
    (k : String) (X : List (List α)) :
    RFF.transform cosF s (RFF.init g M k) X = .error .notFitted ∧
    RFF.compute_kernel cosF s (RFF.init g M k) X = .error .notFitted := by
  exact ⟨rfl, rfl⟩

/-- C5 (amended).  Calling `predict` on a `SparseGPModel` on which `fit` has
never been called (so the `model_` attribute was never assigned) fails with
Python's `AttributeError`, not with a NotFitted error: the wrapper has no
fitted-state guard. -/
theorem sparse_predict_unfitted_attrError {κ : Type}
    (gpy : GPyData α → List (List α) → List (List α) × List (List α))
    (k : κ) (M : Nat) (X : List (List α)) :
    SparseGPModel.predict gpy (SparseGPModel.init k M) X = .error .attrError := by
  rfl

/-- C5 counterexample.  At a concrete unfitted regressor, `predict` returns
`AttributeError`, which is not the `NotFitted` error the claim requires. -/
theorem sparse_predict_unfitted_cex :
    SparseGPModel.predict (fun _ _ => ([], []))
        (SparseGPModel.init () 100 : SparseGPModel ℤ Unit) [[1]]
      = .error .attrError ∧
    (Except.error Err.attrError : Except Err (List (List ℤ))) ≠ .error .notFitted := by
  refine ⟨rfl, ?_⟩
  intro h
  injection h with h2
  exact absurd h2 (by decide)

/-- C6 counterexample.  Fitting a concrete regressor with `num_inducing = 0`
succeeds (storing an empty inducing set) instead of raising
`InvalidHyperparameter`, and the RFF constructor likewise accepts
`n_components = 0` without error. -/
theorem sparse_fit_M0_cex :
    SparseGPModel.fit (SparseGPModel.init () 0 : SparseGPModel ℤ Unit)
        [1, 0] [[1], [2]] [[3], [4]]
      = .ok ⟨(), 0, some ⟨[[1], [2]], [[3], [4]], []⟩⟩ ∧
    SparseGPModel.fit (SparseGPModel.init () 0 : SparseGPModel ℤ Unit)
        [1, 0] [[1], [2]] [[3], [4]]
      ≠ .error .invalidHyperparameter ∧
    (RFF.init (1 : ℤ) 0 "rbf").n_components = 0 ∧
    (RFF.init (1 : ℤ) 0 "rbf").fitted = false := by
  refine ⟨rfl, ?_, rfl, rfl⟩
  intro h
  simp [SparseGPModel.fit] at h

/-- C6 (amended).  No hyperparameter validation exists: `SparseGPModel.fit`
succeeds for every `num_inducing` (with `M = 0` it silently stores an empty
inducing set, and with `M > N` it silently selects only the
`min M N` available rows), and `RFF.__init__` accepts `n_components = 0`
without error. -/
theorem sparse_fit_no_validation {κ : Type} (m : SparseGPModel α κ)
    (idx : List Nat) (X y : List (List α)) (g : α) (M : Nat) (k : String) :
    SparseGPModel.fit m idx X y
      = .ok { m with model_ := some ⟨X, y, selectInducing idx m.num_inducing X⟩ } ∧
    (selectInducing idx m.num_inducing X).length = min m.num_inducing idx.length ∧
    selectInducing idx 0 X = [] ∧
    (RFF.init g M k).fitted = false ∧
    (RFF.init g M k).n_components = M := by
  refine ⟨rfl, ?_, rfl, rfl, rfl⟩
  simp [selectInducing]

/-- C7.  When the inducing inputs are not caller-supplied, `fit` takes the
first `num_inducing` indices of a permutation `idx` of the row indices of
`X`: every selected inducing input is a row of `X`, and no row index is
selected twice. -/
theorem sparse_fit_inducing_from_rows {κ : Type} (m : SparseGPModel α κ)
    (idx : List Nat) (X y : List (List α))
    (hidx : idx.Perm (List.range X.length)) :
    SparseGPModel.fit m idx X y
      = .ok { m with model_ := some ⟨X, y, selectInducing idx m.num_inducing X⟩ } ∧
    (∀ z ∈ selectInducing idx m.num_inducing X, z ∈ X) ∧
    (idx.take m.num_inducing).Nodup := by
  refine ⟨rfl, ?_, ?_⟩
  · intro z hz
    unfold selectInducing at hz
    obtain ⟨i, hi, hzi⟩ := List.mem_map.mp hz
    have hiidx : i ∈ idx := List.mem_of_mem_take hi
    have hilt : i < X.length := List.mem_range.mp (hidx.mem_iff.mp hiidx)
    rw [← hzi, List.getD_eq_getElem _ _ hilt]
    exact List.getElem_mem hilt
  · have hnodup : idx.Nodup := hidx.nodup_iff.mpr (List.nodup_range _)
    exact hnodup.sublist (List.take_sublist _ _)

/-- Witness for C7 at a concrete permutation `[1, 0]` of the two rows of a
concrete `X`, with one inducing point. -/
theorem sparse_fit_inducing_from_rows_witness :
    SparseGPModel.fit (⟨(), 1, none⟩ : SparseGPModel ℤ Unit) [1, 0]
        [[5], [7]] [[9], [9]]
      = .ok ⟨(), 1, some ⟨[[5], [7]], [[9], [9]], [[7]]⟩⟩ ∧
    (∀ z ∈ selectInducing [1, 0] 1 ([[5], [7]] : List (List ℤ)), z ∈ [[5], [7]]) ∧
    (([1, 0] : List Nat).take 1).Nodup := by
  exact sparse_fit_inducing_from_rows ⟨(), 1, none⟩ [1, 0] [[5], [7]] [[9], [9]]
    (by decide)

/-- C8 (amended).  On a fitted regressor, `predict` returns only the
predictive mean: the first component of the `(mean, variance)` pair produced
by the underlying GPy model; the variance is discarded. -/
theorem sparse_predict_mean_only {κ : Type}
    (gpy : GPyData α → List (List α) → List (List α) × List (List α))
    (m : SparseGPModel α κ) (g : GPyData α) (X : List (List α))
    (h : m.model_ = some g) :
    SparseGPModel.predict gpy m X = .ok (gpy g X).1 := by
  unfold SparseGPModel.predict
  rw [h]

/-- Witness for C8 (amended) at a concrete fitted regressor whose GPy oracle
returns mean `[[5]]` and variance `[[1]]`: `predict` yields only `[[5]]`. -/
theorem sparse_predict_mean_only_witness :
    SparseGPModel.predict (fun _ _ => ([[5]], [[1]]))
        (⟨(), 1, some ⟨[[1]], [[1]], [[1]]⟩⟩ : SparseGPModel ℤ Unit) [[1]]
      = .ok [[5]] := by
  exact sparse_predict_mean_only (fun _ _ => ([[5]], [[1]]))
    ⟨(), 1, some ⟨[[1]], [[1]], [[1]]⟩⟩ ⟨[[1]], [[1]], [[1]]⟩ [[1]] rfl

/-- C8 counterexample.  Two GPy oracles that agree on the mean but return
different variances produce identical `predict` outputs on the same fitted
regressor, so the value returned by `predict` does not contain the
variance: it is not the claimed `(mean, variance)` pair. -/
theorem sparse_predict_variance_discarded_cex :
    SparseGPModel.predict (fun _ _ => ([[5]], [[1]]))
        (⟨(), 1, some ⟨[[1]], [[1]], [[1]]⟩⟩ : SparseGPModel ℤ Unit) [[1]]
      = SparseGPModel.predict (fun _ _ => ([[5]], [[2]]))
        (⟨(), 1, some ⟨[[1]], [[1]], [[1]]⟩⟩ : SparseGPModel ℤ Unit) [[1]] ∧
    ([[1]] : List (List ℤ)) ≠ [[2]] := by
  exact ⟨rfl, by decide⟩

/-- C9.  Method calls on a fitted RFF mapper do not mutate it: the post-call
state of `transform` and of `compute_kernel` keeps `w`, `u` and `fitted`
unchanged, and a second `transform` call on the post-call state returns the
identical output. -/
theorem rff_no_mutation_idempotent (cosF : α → α) (s : Nat → α) (r : RFF α)
    (X : List (List α)) :
    (RFF.transformS cosF s r X).2.w = r.w ∧
    (RFF.transformS cosF s r X).2.u = r.u ∧
    (RFF.transformS cosF s r X).2.fitted = r.fitted ∧
    (RFF.compute_kernelS cosF s r X).2.w = r.w ∧
    (RFF.compute_kernelS cosF s r X).2.u = r.u ∧
    (RFF.compute_kernelS cosF s r X).2.fitted = r.fitted ∧
    (RFF.transformS cosF s (RFF.transformS cosF s r X).2 X).1
      = (RFF.transformS cosF s r X).1 := by
  exact ⟨rfl, rfl, rfl, rfl, rfl, rfl, rfl⟩

/-- C10.  `RFF.fit` ignores its `y` argument and the entries of `X`: for any
two inputs with the same number of columns and any targets, fitting from the
same random state produces identical instance states (`w`, `u`, `fitted` and
all hyperparameters). -/
theorem rff_fit_ignores_data (r : RFF α) (rand : Nat → α)
    (X1 X2 : List (List α)) (y1 y2 : Option (List α))
    (h : shape1 X1 = shape1 X2) :
    RFF.fit r rand X1 y1 = RFF.fit r rand X2 y2 := by
  unfold RFF.fit
  rw [h]

/-- Witness for C10: two single-column inputs of different sizes and entries,
with different targets, yield identical fitted states. -/
theorem rff_fit_ignores_data_witness :
    RFF.fit (RFF.init (1 : ℤ) 2 "rbf") (fun _ => 3) [[1], [2]] none
      = RFF.fit (RFF.init (1 : ℤ) 2 "rbf") (fun _ => 3) [[5]] (some [9]) := by
  exact rff_fit_ignores_data (RFF.init 1 2 "rbf") (fun _ => 3) [[1], [2]] [[5]]
    none (some [9]) rfl

end LargeScaleGP
